import Mathlib

/-!
Verification of the MCP-Server-Template tool-execution core.

Shallow embedding of `src/tools/base.py` (the ToolResult/ToolError model,
the outer execution wrapper `BaseTool.__call__`, the `tool_timeout`,
`tool_retry` and `validate_required_params` decorators, and the two
response formatters) and of `calculate_statistics` from
`src/tools/example_tools.py`.

Python dictionaries are modelled as association lists built in the order
the source inserts keys (all literals in the source use distinct keys, so
first-match lookup agrees with Python dict semantics).  Python exceptions
become an explicit `Exc` type; a fallible call returns `Except`.  Wall
clock deltas (`time.time() - start_time`) become an explicit `elapsed`
parameter.
-/

namespace MCPTemplate

/-- A Python `Any` value as it occurs in this code base: `None`, `bool`,
`str`, numbers (idealised as `ℚ`), a list of strings (the
`missing_parameters` detail), an opaque tool payload of type `T`, or a
nested `dict`. -/
inductive Val (T : Type) where
  | vnone
  | bool (b : Bool)
  | str (s : String)
  | num (q : ℚ)
  | strList (l : List String)
  | payload (x : T)
  | table (m : List (String × Val T))

/-- A Python `dict` with `α` values, as an insertion-ordered association
list. -/
abbrev Dict (α : Type) := List (String × α)

/-- Keyword arguments (`**kwargs`): a dict of `Any` values. -/
abbrev Kwargs (T : Type) := Dict (Val T)

/-- Membership `k in d` for a Python dict. -/
def hasKey (d : Dict α) (k : String) : Bool :=
  d.any (fun kv => kv.1 == k)

/-- Lookup `d[k]` (first matching key). -/
def lookup (d : Dict α) (k : String) : Option α :=
  (d.find? (fun kv => kv.1 == k)).map (fun kv => kv.2)

/-- Truthiness of an `Optional[str]`: `None` and `""` are falsy. -/
def truthyStr : Option String → Bool
  | none => false
  | some s => !(s == "")

/-- Truthiness of an `Optional[Dict]`: `None` and `{}` are falsy. -/
def truthyDict : Option (Dict α) → Bool
  | none => false
  | some m => !m.isEmpty

/-- A Python exception as raised inside this code base: a `ToolError`
(message, error_code, details), `asyncio.TimeoutError`, or any other
exception identified by its `str()` rendering. -/
inductive Exc (T : Type) where
  | toolError (message : String) (error_code : String) (details : Dict (Val T))
  | asyncioTimeout
  | other (s : String)

/-- Stringification `str(e)` of an exception: a `ToolError` stringifies to its message
(it is passed to `Exception.__init__`), `asyncio.TimeoutError()` to `""`. -/
def Exc.str : Exc T → String
  | .toolError m _ _ => m
  | .asyncioTimeout => ""
  | .other s => s

/-- Whether the exception is (an instance of) `ToolError`. -/
def Exc.isToolError : Exc T → Bool
  | .toolError _ _ _ => true
  | _ => false

/-- The `ToolResult` dataclass of `src/tools/base.py`: `success`,
`data: Optional[T]`, `error: Optional[str]`, `error_code: Optional[str]`,
`metadata: Optional[Dict]`, `execution_time: Optional[float]`. -/
structure ToolResult (T : Type) where
  success : Bool
  data : Option T := none
  error : Option String := none
  error_code : Option String := none
  metadata : Option (Dict (Val T)) := none
  execution_time : Option ℚ := none

/-- An `Optional[str]` rendered as a dict value. -/
def optStr : Option String → Val T
  | none => .vnone
  | some s => .str s

/-- An `Optional[float]` rendered as a dict value. -/
def optNum : Option ℚ → Val T
  | none => .vnone
  | some q => .num q

/-- An `Optional[T]` payload rendered as a dict value. -/
def optPayload : Option T → Val T
  | none => .vnone
  | some x => .payload x

/-- Serialisation `ToolResult.to_dict` (base.py lines 50-66): always emits `success` and
`execution_time`; on success emits `data` and, when `self.metadata` is
truthy, `metadata`; on failure emits `error` and, when `self.error_code`
is truthy, `error_code`. -/
def ToolResult.to_dict (r : ToolResult T) : Dict (Val T) :=
  let result : Dict (Val T) :=
    [("success", .bool r.success), ("execution_time", optNum r.execution_time)]
  if r.success then
    let result := result ++ [("data", optPayload r.data)]
    match r.metadata with
    | some m => if m.isEmpty then result else result ++ [("metadata", .table m)]
    | none => result
  else
    let result := result ++ [("error", optStr r.error)]
    match r.error_code with
    | some c => if c == "" then result else result ++ [("error_code", .str c)]
    | none => result

/-- A concrete tool as seen by `BaseTool.__call__`: its
`validate_parameters` override (returning the exception it raises, if
any) and its `execute` body (returning a `ToolResult` or raising). -/
structure ToolSpec (T : Type) where
  validate : Kwargs T → Option (Exc T)
  execute : Kwargs T → Except (Exc T) (ToolResult T)

/-- The shared failure branch of `BaseTool.__call__` (base.py lines
127-148): a `ToolError` is turned into a failure `ToolResult` carrying
its message, code, and details-as-metadata; any other exception into a
failure `ToolResult` with code `"UNEXPECTED_ERROR"` and `str(e)` as the
message. -/
def handleExc (e : Exc T) (elapsed : ℚ) : Dict (Val T) :=
  match e with
  | .toolError m c d =>
      (ToolResult.mk false none (some m) (some c) (some d) (some elapsed)).to_dict
  | e =>
      (ToolResult.mk false none (some e.str) (some "UNEXPECTED_ERROR") none
        (some elapsed)).to_dict

/-- The wrapper `BaseTool.__call__` (base.py lines 103-148): run
`validate_parameters`, then `execute`; on normal return stamp
`execution_time` and serialise; on a raised exception dispatch to the
failure branch.  `elapsed` stands for the wall-clock delta
`time.time() - start_time` measured when the branch finishes.  The
wrapper never raises: this function is total. -/
def BaseTool.call (tool : ToolSpec T) (kwargs : Kwargs T) (elapsed : ℚ) :
    Dict (Val T) :=
  match tool.validate kwargs with
  | some e => handleExc e elapsed
  | none =>
      match tool.execute kwargs with
      | .error e => handleExc e elapsed
      | .ok result => { result with execution_time := some elapsed }.to_dict

/-- Proposition: `e` is raised out of validation or execution of `tool` on `kwargs`
(and so reaches the `except` clauses of `BaseTool.__call__`). -/
def raises (tool : ToolSpec T) (kwargs : Kwargs T) (e : Exc T) : Prop :=
  tool.validate kwargs = some e ∨
    (tool.validate kwargs = none ∧ tool.execute kwargs = .error e)

/-- The view `tool_timeout` has of the wrapped coroutine: how long it runs and
what it then does (return or raise). -/
structure AsyncOp (T R : Type) where
  duration : ℚ
  result : Except (Exc T) R

/-- The decorator `tool_timeout` (base.py lines 165-183): `asyncio.wait_for` lets the
operation finish when its duration is within the bound and raises
`asyncio.TimeoutError` otherwise; the wrapper turns a caught
`asyncio.TimeoutError` into a `ToolError` with code `"TIMEOUT_ERROR"`
whose message interpolates the configured bound. -/
def tool_timeout (seconds : ℕ) (op : AsyncOp T R) : Except (Exc T) R :=
  let attempt : Except (Exc T) R :=
    if op.duration ≤ (seconds : ℚ) then op.result else .error .asyncioTimeout
  match attempt with
  | .error .asyncioTimeout =>
      .error (.toolError
        ("Tool execution timed out after " ++ toString seconds ++ " seconds")
        "TIMEOUT_ERROR" [])
  | r => r

/-- What one run of a `tool_retry`-wrapped function does: return a value,
re-raise the last stored exception, or execute `raise None` because
`last_exception` was never assigned (in Python that raises a `TypeError`,
not the operation's own exception). -/
inductive RetryOutcome (E R : Type) where
  | ok (r : R)
  | raised (e : E)
  | raiseNone

/-- A run of the retry wrapper, with its observable trace: the outcome,
how many times the wrapped function was invoked, and the argument of each
`asyncio.sleep` in order. -/
structure RetryTrace (E R : Type) where
  outcome : RetryOutcome E R
  calls : ℕ
  sleeps : List ℚ

/-- The `for attempt in range(max_attempts)` loop of `tool_retry`
(base.py lines 197-214), iterating over the outcomes of the remaining
attempts.  `rest ≠ []` is exactly Python's `attempt < max_attempts - 1`.
On falling out of the loop, `raise last_exception` re-raises the stored
exception, or `raise None` when none was stored. -/
def retryGo (backoff : ℚ) :
    List (Except E R) → ℚ → Option E → ℕ → List ℚ → RetryTrace E R
  | [], _, lastExc, calls, sleeps =>
      match lastExc with
      | some e => ⟨.raised e, calls, sleeps⟩
      | none => ⟨.raiseNone, calls, sleeps⟩
  | o :: rest, currentDelay, _, calls, sleeps =>
      match o with
      | .ok r => ⟨.ok r, calls + 1, sleeps⟩
      | .error e =>
          if rest.isEmpty then
            retryGo backoff rest currentDelay (some e) (calls + 1) sleeps
          else
            retryGo backoff rest (currentDelay * backoff) (some e) (calls + 1)
              (sleeps ++ [currentDelay])

/-- The decorator `tool_retry(max_attempts, delay, backoff)` applied to a function
whose `i`-th invocation (0-based) behaves as `func i`. -/
def tool_retry (func : ℕ → Except E R) (maxAttempts : ℕ) (delay backoff : ℚ) :
    RetryTrace E R :=
  retryGo backoff ((List.range maxAttempts).map func) delay none 0 []

/-- The decorator `validate_required_params` (base.py lines 219-238): collect the
required names absent from `kwargs` in required-list order; if any,
raise a `ToolError` with code `"MISSING_PARAMETERS"` listing them in the
message and in `details["missing_parameters"]`; otherwise call through. -/
def validate_required_params (required : List String)
    (func : Kwargs T → Except (Exc T) R) (kwargs : Kwargs T) :
    Except (Exc T) R :=
  let missing := required.filter (fun p => !(hasKey kwargs p))
  if missing.isEmpty then func kwargs
  else
    .error (.toolError
      ("Missing required parameters: " ++ String.intercalate ", " missing)
      "MISSING_PARAMETERS" [("missing_parameters", .strList missing)])

/-- The helper `format_success_response` (base.py lines 262-279): the dict literal
`{"success": True, "message": message, "data": data, "metadata": metadata}`
(the `metadata` key is written unconditionally, `**metadata` collected
into a possibly-empty dict). -/
def format_success_response (data : Val T) (message : String)
    (metadata : Dict (Val T)) : Dict (Val T) :=
  [("success", .bool true), ("message", .str message), ("data", data),
   ("metadata", .table metadata)]

/-- The helper `format_error_response` (base.py lines 282-299): the dict literal
`{"success": False, "error": error, "error_code": error_code,
"details": details}`. -/
def format_error_response (error : String) (error_code : String)
    (details : Dict (Val T)) : Dict (Val T) :=
  [("success", .bool false), ("error", .str error),
   ("error_code", .str error_code), ("details", .table details)]

/-- Python's built-in `round` to an integer: round-half-to-even. -/
def pythonRound {α : Type} [LinearOrderedField α] [FloorRing α]
    [DecidableEq α] (x : α) : ℤ :=
  if Int.fract x = 1 / 2 then (if Even ⌊x⌋ then ⌊x⌋ else ⌊x⌋ + 1)
  else round x

/-- Python's `round(x, p)` to `p` decimal places. -/
def pythonRoundTo {α : Type} [LinearOrderedField α] [FloorRing α]
    [DecidableEq α] (x : α) (p : ℤ) : α :=
  (pythonRound (x * (10 : α) ^ p) : α) / (10 : α) ^ p

/-- Python's `min` over a non-empty list (`0` is a junk value for `[]`,
which `calculate_statistics` has already ruled out). -/
def pyMin : List ℚ → ℚ
  | [] => 0
  | x :: xs => xs.foldl Min.min x

/-- Python's `max` over a non-empty list. -/
def pyMax : List ℚ → ℚ
  | [] => 0
  | x :: xs => xs.foldl Max.max x

/-- The `stats` payload computed by `calculate_statistics`
(example_tools.py lines 136-145). -/
structure Stats where
  count : ℕ
  sum : ℚ
  mean : ℚ
  median : ℚ
  min : ℚ
  max : ℚ
  std_dev : ℝ
  variance : ℚ

/-- The tool `calculate_statistics` (example_tools.py lines 94-156), idealising
floats as exact rationals and `variance ** 0.5` as the real square root.
The `isinstance` check is vacuous in this typed model.  On success the
source wraps this payload via `format_success_response`
(modelled above); the claims about it concern the `data` payload, which
this function returns. -/
noncomputable def calculate_statistics (numbers : List ℚ) (precision : ℤ) :
    Except (Exc Unit) Stats :=
  if numbers.isEmpty then
    .error (.toolError "Numbers list cannot be empty" "EMPTY_LIST" [])
  else if precision < 0 ∨ 10 < precision then
    .error (.toolError "Precision must be between 0 and 10" "INVALID_PRECISION" [])
  else
    let count := numbers.length
    let total := numbers.sum
    let mean : ℚ := total / (count : ℚ)
    let sorted := numbers.insertionSort (fun a b => a ≤ b)
    let mid := count / 2
    let median : ℚ :=
      if count % 2 = 0 then (sorted.getD (mid - 1) 0 + sorted.getD mid 0) / 2
      else sorted.getD mid 0
    let variance : ℚ := (numbers.map (fun x => (x - mean) ^ 2)).sum / (count : ℚ)
    let std_dev : ℝ := Real.sqrt (variance : ℝ)
    .ok
      { count := count
        sum := pythonRoundTo total precision
        mean := pythonRoundTo mean precision
        median := pythonRoundTo median precision
        min := pyMin numbers
        max := pyMax numbers
        std_dev := pythonRoundTo std_dev precision
        variance := pythonRoundTo variance precision }

/-! Concrete fixtures used by witnesses and counterexamples -/

/-- A tool whose `execute` raises a plain (non-`ToolError`) exception
rendering as `"boom"`. -/
def unexpectedTool : ToolSpec Unit :=
  { validate := fun _ => none
    execute := fun _ => .error (.other "boom") }

/-- A tool whose `execute` raises
`ToolError("boom", error_code="BAD_INPUT", details={"k": "v"})`. -/
def toolErrorTool : ToolSpec Unit :=
  { validate := fun _ => none
    execute := fun _ => .error (.toolError "boom" "BAD_INPUT" [("k", .str "v")]) }

/-- An operation every invocation of which raises (the exception records
the attempt number). -/
def alwaysFailOp : ℕ → Except String Unit :=
  fun i => .error ("fail " ++ toString i)

/-- The exponential backoff schedule: the argument of the `i`-th sleep
(0-based) performed by `tool_retry` is `delay * backoff ^ i`. -/
def backoffSchedule (delay backoff : ℚ) (n : ℕ) : List ℚ :=
  (List.range n).map (fun i => delay * backoff ^ i)

/-! Shape of `ToolResult.to_dict` -/

theorem to_dict_false_eq (r : ToolResult T) (h : r.success = false) :
    r.to_dict =
      [("success", Val.bool false), ("execution_time", optNum r.execution_time),
        ("error", optStr r.error)] ++
        (match r.error_code with
          | some c => if c == "" then [] else [("error_code", Val.str c)]
          | none => []) := by
  obtain ⟨s, d, e, ec, m, t⟩ := r
  subst h
  cases ec <;> simp [ToolResult.to_dict] <;> split <;> simp

theorem to_dict_true_eq (r : ToolResult T) (h : r.success = true) :
    r.to_dict =
      [("success", Val.bool true), ("execution_time", optNum r.execution_time),
        ("data", optPayload r.data)] ++
        (match r.metadata with
          | some m => if m.isEmpty then [] else [("metadata", Val.table m)]
          | none => []) := by
  obtain ⟨s, d, e, ec, m, t⟩ := r
  subst h
  cases m <;> simp [ToolResult.to_dict] <;> split <;> simp

theorem to_dict_lookup_time (r : ToolResult T) :
    lookup r.to_dict "execution_time" = some (optNum r.execution_time) := by
  obtain ⟨s, d, e, ec, m, t⟩ := r
  cases s <;> cases m <;> cases ec <;>
    simp [ToolResult.to_dict, lookup, List.find?] <;> split <;>
    simp [List.find?]

theorem to_dict_lookup_success (r : ToolResult T) :
    lookup r.to_dict "success" = some (Val.bool r.success) := by
  obtain ⟨s, d, e, ec, m, t⟩ := r
  cases s <;> cases m <;> cases ec <;>
    simp [ToolResult.to_dict, lookup, List.find?] <;> split <;>
    simp [List.find?]

theorem to_dict_failure_lookup_error (r : ToolResult T) (h : r.success = false) :
    lookup r.to_dict "error" = some (optStr r.error) := by
  rw [to_dict_false_eq r h]
  cases r.error_code <;> simp [lookup, List.find?]

theorem to_dict_failure_no_metadata (r : ToolResult T) (h : r.success = false) :
    hasKey r.to_dict "metadata" = false := by
  rw [to_dict_false_eq r h]
  cases r.error_code <;> simp [hasKey]

theorem to_dict_failure_no_data (r : ToolResult T) (h : r.success = false) :
    hasKey r.to_dict "data" = false := by
  rw [to_dict_false_eq r h]
  cases r.error_code <;> simp [hasKey]

theorem to_dict_failure_error_code (r : ToolResult T) (h : r.success = false)
    (c : String) (hc : r.error_code = some c) (hne : c ≠ "") :
    lookup r.to_dict "error_code" = some (Val.str c) := by
  rw [to_dict_false_eq r h, hc]
  simp [lookup, List.find?, hne]

theorem to_dict_failure_error_code_absent (r : ToolResult T)
    (h : r.success = false) (hc : truthyStr r.error_code = false) :
    hasKey r.to_dict "error_code" = false := by
  rw [to_dict_false_eq r h]
  cases hec : r.error_code with
  | none => simp [hasKey]
  | some c =>
      rw [hec] at hc
      simp [truthyStr] at hc
      simp [hasKey, hc]

theorem to_dict_success_lookup_data (r : ToolResult T) (h : r.success = true) :
    lookup r.to_dict "data" = some (optPayload r.data) := by
  rw [to_dict_true_eq r h]
  cases r.metadata <;> simp [lookup, List.find?]

theorem to_dict_success_no_error (r : ToolResult T) (h : r.success = true) :
    hasKey r.to_dict "error" = false ∧ hasKey r.to_dict "error_code" = false := by
  rw [to_dict_true_eq r h]
  cases r.metadata <;> simp [hasKey] <;> split <;> simp

/-! Generic lookup and hasKey glue -/

theorem hasKey_of_lookup (d : Dict α) (k : String) (v : α)
    (h : lookup d k = some v) : hasKey d k = true := by
  unfold lookup at h
  cases hf : d.find? (fun kv => kv.1 == k) with
  | none => rw [hf] at h; cases h
  | some kv =>
      have hp := List.find?_some hf
      have hm := List.mem_of_find?_eq_some hf
      unfold hasKey
      rw [List.any_eq_true]
      exact ⟨kv, hm, hp⟩

/-! Behaviour of the outer wrapper `BaseTool.__call__` -/

theorem call_eq_handleExc (tool : ToolSpec T) (kwargs : Kwargs T) (e : Exc T)
    (elapsed : ℚ) (hr : raises tool kwargs e) :
    BaseTool.call tool kwargs elapsed = handleExc e elapsed := by
  unfold BaseTool.call
  rcases hr with h | ⟨h1, h2⟩
  · rw [h]
  · rw [h1, h2]

theorem handleExc_toolError (m c : String) (d : Dict (Val T)) (elapsed : ℚ) :
    handleExc (Exc.toolError m c d) elapsed
      = (ToolResult.mk false none (some m) (some c) (some d)
          (some elapsed)).to_dict := rfl

theorem handleExc_nonToolError (e : Exc T) (he : e.isToolError = false)
    (elapsed : ℚ) :
    handleExc e elapsed =
      (ToolResult.mk false none (some e.str) (some "UNEXPECTED_ERROR") none
        (some elapsed)).to_dict := by
  cases e with
  | toolError m c d => simp [Exc.isToolError] at he
  | asyncioTimeout => rfl
  | other s => rfl

theorem call_lookup_time (tool : ToolSpec T) (kwargs : Kwargs T) (elapsed : ℚ) :
    lookup (BaseTool.call tool kwargs elapsed) "execution_time"
      = some (Val.num elapsed) := by
  unfold BaseTool.call
  cases tool.validate kwargs with
  | some e => cases e <;> simpa [handleExc, optNum] using to_dict_lookup_time _
  | none =>
      cases tool.execute kwargs with
      | error e => cases e <;> simpa [handleExc, optNum] using to_dict_lookup_time _
      | ok result => simpa [optNum] using to_dict_lookup_time _

/-- C1: Invoking a tool through `BaseTool.__call__` never raises to
the caller (`BaseTool.call` is a total function): every path — success,
`ToolError`, and unclassified exception — populates `execution_time`
with the non-negative wall-clock delta, and when validation or execution
raises an exception that is not a `ToolError` the returned mapping has
`success = false`, `error_code = "UNEXPECTED_ERROR"`, and `error` equal
to the stringified exception. -/
theorem c1_wrapper_never_raises (T : Type) (tool : ToolSpec T)
    (kwargs : Kwargs T) (elapsed : ℚ) (h0 : 0 ≤ elapsed) :
    lookup (BaseTool.call tool kwargs elapsed) "execution_time"
        = some (Val.num elapsed) ∧
    (∀ e : Exc T, raises tool kwargs e → e.isToolError = false →
      lookup (BaseTool.call tool kwargs elapsed) "success"
          = some (Val.bool false) ∧
      lookup (BaseTool.call tool kwargs elapsed) "error_code"
          = some (Val.str "UNEXPECTED_ERROR") ∧
      lookup (BaseTool.call tool kwargs elapsed) "error"
          = some (Val.str e.str) ∧
      ∃ t : ℚ, lookup (BaseTool.call tool kwargs elapsed) "execution_time"
          = some (Val.num t) ∧ 0 ≤ t) := by
  refine ⟨call_lookup_time tool kwargs elapsed, ?_⟩
  intro e hr hnt
  rw [call_eq_handleExc tool kwargs e elapsed hr,
    handleExc_nonToolError e hnt elapsed]
  refine ⟨?_, ?_, ?_, elapsed, ?_, h0⟩
  · simpa using to_dict_lookup_success _
  · exact to_dict_failure_error_code _ rfl _ rfl (by decide)
  · simpa [optStr] using to_dict_failure_lookup_error _ rfl
  · simpa [optNum] using to_dict_lookup_time _

/-- Witness for C1 at a concrete tool raising a plain exception. -/
theorem c1_wrapper_never_raises_witness :
    lookup (BaseTool.call unexpectedTool [] 1) "execution_time"
        = some (Val.num 1) ∧
    lookup (BaseTool.call unexpectedTool [] 1) "success"
        = some (Val.bool false) ∧
    lookup (BaseTool.call unexpectedTool [] 1) "error_code"
        = some (Val.str "UNEXPECTED_ERROR") ∧
    lookup (BaseTool.call unexpectedTool [] 1) "error"
        = some (Val.str "boom") :=
  ⟨(c1_wrapper_never_raises Unit unexpectedTool [] 1 (by norm_num)).1,
    ((c1_wrapper_never_raises Unit unexpectedTool [] 1 (by norm_num)).2
      (.other "boom") (Or.inr ⟨rfl, rfl⟩) rfl).1,
    ((c1_wrapper_never_raises Unit unexpectedTool [] 1 (by norm_num)).2
      (.other "boom") (Or.inr ⟨rfl, rfl⟩) rfl).2.1,
    ((c1_wrapper_never_raises Unit unexpectedTool [] 1 (by norm_num)).2
      (.other "boom") (Or.inr ⟨rfl, rfl⟩) rfl).2.2.1⟩

/-- C2 counterexample: a `ToolError` raised with non-empty details
`{"k": "v"}` produces a mapping consisting of exactly `success`,
`execution_time`, `error`, and `error_code`: the details are not present
in the returned mapping (serialisation drops `metadata` on failure),
refuting the claim that the details are carried into the result. -/
theorem c2_details_dropped_counterexample :
    BaseTool.call toolErrorTool [] 0 =
      [("success", Val.bool false), ("execution_time", Val.num 0),
        ("error", Val.str "boom"), ("error_code", Val.str "BAD_INPUT")] ∧
    hasKey (BaseTool.call toolErrorTool [] 0) "metadata" = false := by
  constructor <;> rfl

/-- C2 amended: for every `ToolError` raised with message `m`,
code `c` and details `d`, the returned mapping has `error = m` and, when
`c` is non-empty, `error_code = c` (the key is absent when `c` is
empty); the details are stored on the intermediate `ToolResult`'s
`metadata` field but `to_dict` drops `metadata` for failure results, so
the details do not appear in the returned mapping. -/
theorem c2_toolerror_result (T : Type) (tool : ToolSpec T)
    (kwargs : Kwargs T) (elapsed : ℚ) (m c : String) (d : Dict (Val T))
    (hr : raises tool kwargs (.toolError m c d)) :
    lookup (BaseTool.call tool kwargs elapsed) "error" = some (Val.str m) ∧
    (c ≠ "" → lookup (BaseTool.call tool kwargs elapsed) "error_code"
        = some (Val.str c)) ∧
    (c = "" → hasKey (BaseTool.call tool kwargs elapsed) "error_code" = false) ∧
    hasKey (BaseTool.call tool kwargs elapsed) "metadata" = false := by
  rw [call_eq_handleExc tool kwargs _ elapsed hr, handleExc_toolError]
  refine ⟨?_, ?_, ?_, ?_⟩
  · simpa [optStr] using to_dict_failure_lookup_error _ rfl
  · intro hne
    exact to_dict_failure_error_code _ rfl c rfl hne
  · intro hc
    subst hc
    exact to_dict_failure_error_code_absent _ rfl (by simp [truthyStr])
  · exact to_dict_failure_no_metadata _ rfl

/-- Witness for the amended C2 at a concrete `ToolError`. -/
theorem c2_toolerror_result_witness :
    lookup (BaseTool.call toolErrorTool [] 0) "error" = some (Val.str "boom") ∧
    lookup (BaseTool.call toolErrorTool [] 0) "error_code"
        = some (Val.str "BAD_INPUT") ∧
    hasKey (BaseTool.call toolErrorTool [] 0) "metadata" = false :=
  ⟨(c2_toolerror_result Unit toolErrorTool [] 0 "boom" "BAD_INPUT"
      [("k", .str "v")] (Or.inr ⟨rfl, rfl⟩)).1,
    (c2_toolerror_result Unit toolErrorTool [] 0 "boom" "BAD_INPUT"
      [("k", .str "v")] (Or.inr ⟨rfl, rfl⟩)).2.1 (by decide),
    (c2_toolerror_result Unit toolErrorTool [] 0 "boom" "BAD_INPUT"
      [("k", .str "v")] (Or.inr ⟨rfl, rfl⟩)).2.2.2⟩

/-- C3 counterexample: a failure `ToolResult` whose `error_code`
field is `None` serialises without an `error_code` key, refuting the
claim that `success = false` implies both `error` and `error_code` are
present. -/
theorem c3_error_code_optional_counterexample :
    (ToolResult.mk (T := Unit) false none (some "x") none none
        none).success = false ∧
    hasKey (ToolResult.mk (T := Unit) false none (some "x") none none
        none).to_dict "error_code" = false := by
  constructor <;> rfl

/-- C3 amended: `to_dict` is exclusively shaped, gated by
`success`: on success the mapping contains `data` and neither `error`
nor `error_code`; on failure it contains `error`, does not contain
`data`, and contains `error_code` exactly when the `error_code` field is
a non-empty string (it is omitted for `None` or `""`). -/
theorem c3_to_dict_exclusive_shape (T : Type) (r : ToolResult T) :
    (r.success = true →
      hasKey r.to_dict "data" = true ∧ hasKey r.to_dict "error" = false ∧
        hasKey r.to_dict "error_code" = false) ∧
    (r.success = false →
      hasKey r.to_dict "error" = true ∧ hasKey r.to_dict "data" = false ∧
        (hasKey r.to_dict "error_code" = true ↔
          truthyStr r.error_code = true)) := by
  constructor
  · intro h
    exact ⟨hasKey_of_lookup _ _ _ (to_dict_success_lookup_data r h),
      (to_dict_success_no_error r h).1, (to_dict_success_no_error r h).2⟩
  · intro h
    refine ⟨hasKey_of_lookup _ _ _ (to_dict_failure_lookup_error r h),
      to_dict_failure_no_data r h, ?_, ?_⟩
    · intro hk
      by_contra hts
      rw [to_dict_failure_error_code_absent r h
        (by simpa using Bool.not_eq_true _ ▸ hts)] at hk
      cases hk
    · intro hts
      cases hec : r.error_code with
      | none => rw [hec] at hts; simp [truthyStr] at hts
      | some c =>
          rw [hec] at hts
          simp [truthyStr] at hts
          exact hasKey_of_lookup _ _ _
            (to_dict_failure_error_code r h c hec hts)

/-- Witness for the amended C3 at concrete results. -/
theorem c3_to_dict_exclusive_shape_witness :
    hasKey (ToolResult.mk (T := Unit) true (some ()) none none none
        none).to_dict "data" = true ∧
    hasKey (ToolResult.mk (T := Unit) false none (some "x") (some "E") none
        none).to_dict "error" = true :=
  ⟨((c3_to_dict_exclusive_shape Unit
      (ToolResult.mk true (some ()) none none none none)).1 rfl).1,
    ((c3_to_dict_exclusive_shape Unit
      (ToolResult.mk false none (some "x") (some "E") none none)).2 rfl).1⟩

/-- C4: if at least one required name is absent from the
keyword-argument mapping, `validate_required_params` raises a
`ToolError` with code `"MISSING_PARAMETERS"` whose details list exactly
the absent names — all of them, in required-list order (a sublist of the
required list containing precisely the absent names); if none is
absent, the call passes through to the wrapped operation unchanged. -/
theorem c4_validator (T R : Type) (required : List String)
    (kwargs : Kwargs T) (func : Kwargs T → Except (Exc T) R) :
    ((∃ p ∈ required, hasKey kwargs p = false) →
      ∃ missing : List String, missing ≠ [] ∧ missing.Sublist required ∧
        (∀ p, p ∈ missing ↔ (p ∈ required ∧ hasKey kwargs p = false)) ∧
        validate_required_params required func kwargs =
          .error (.toolError
            ("Missing required parameters: " ++ String.intercalate ", " missing)
            "MISSING_PARAMETERS" [("missing_parameters", .strList missing)])) ∧
    ((∀ p ∈ required, hasKey kwargs p = true) →
      validate_required_params required func kwargs = func kwargs) := by
  constructor
  · rintro ⟨p, hp, hkp⟩
    have hpm : p ∈ required.filter (fun q => !hasKey kwargs q) :=
      List.mem_filter.2 ⟨hp, by simp [hkp]⟩
    refine ⟨required.filter (fun q => !hasKey kwargs q), ?_,
      List.filter_sublist _, ?_, ?_⟩
    · intro hnil
      rw [hnil] at hpm
      cases hpm
    · intro q
      rw [List.mem_filter]
      simp
    · unfold validate_required_params
      rw [if_neg]
      simp only [List.isEmpty_iff]
      intro hnil
      rw [hnil] at hpm
      cases hpm
  · intro h
    have hnil : required.filter (fun q => !hasKey kwargs q) = [] := by
      rw [List.filter_eq_nil]
      intro q hq
      simp [h q hq]
    unfold validate_required_params
    simp [hnil]

/-- Witness for C4: with required `["a", "b"]` and only `b` supplied,
the validator raises listing `["a"]`; the pass-through branch fires when
both are supplied. -/
theorem c4_validator_witness :
    (∃ missing : List String, missing ≠ [] ∧ missing.Sublist ["a", "b"] ∧
      (∀ p, p ∈ missing ↔
        (p ∈ ["a", "b"] ∧
          hasKey ([("b", Val.str "v")] : Kwargs Unit) p = false)) ∧
      validate_required_params (T := Unit) (R := Unit) ["a", "b"]
          (fun _ => .ok ()) [("b", Val.str "v")] =
        .error (.toolError
          ("Missing required parameters: " ++ String.intercalate ", " missing)
          "MISSING_PARAMETERS" [("missing_parameters", .strList missing)])) ∧
    validate_required_params (T := Unit) (R := Unit) ["a", "b"]
        (fun _ => .ok ()) [("a", Val.str "u"), ("b", Val.str "v")] =
      .ok () :=
  ⟨(c4_validator Unit Unit ["a", "b"] [("b", Val.str "v")]
      (fun _ => .ok ())).1 ⟨"a", by decide, by decide⟩,
    (c4_validator Unit Unit ["a", "b"]
      [("a", Val.str "u"), ("b", Val.str "v")] (fun _ => .ok ())).2
      (by decide)⟩

/-! Behaviour of `tool_retry` -/

theorem backoffSchedule_succ (delay backoff : ℚ) (n : ℕ) :
    backoffSchedule delay backoff (n + 1) =
      delay :: backoffSchedule (delay * backoff) backoff n := by
  unfold backoffSchedule
  rw [List.range_succ_eq_map, List.map_cons, List.map_map]
  simp only [pow_zero, mul_one, List.cons.injEq, true_and]
  refine List.map_congr_left ?_
  intro i _
  simp only [Function.comp_apply]
  rw [pow_succ]
  ring

theorem retryGo_calls_le (backoff : ℚ) (l : List (Except E R)) :
    ∀ (d : ℚ) (last : Option E) (calls : ℕ) (sleeps : List ℚ),
      (retryGo backoff l d last calls sleeps).calls ≤ calls + l.length := by
  induction l with
  | nil => intro d last calls sleeps; cases last <;> simp [retryGo]
  | cons o rest ih =>
      intro d last calls sleeps
      cases o with
      | ok r =>
          show calls + 1 ≤ calls + (rest.length + 1)
          omega
      | error e =>
          by_cases hr : rest.isEmpty
          · have := ih d (some e) (calls + 1) sleeps
            simp [retryGo, hr]
            omega
          · have := ih (d * backoff) (some e) (calls + 1) (sleeps ++ [d])
            simp [retryGo, hr]
            omega

theorem retryGo_ok_after_failures (backoff : ℚ) (pre : List (Except E R))
    (hpre : ∀ o ∈ pre, ∃ e, o = .error e) (r : R) (post : List (Except E R)) :
    ∀ (d : ℚ) (last : Option E) (calls : ℕ) (sleeps : List ℚ),
      retryGo backoff (pre ++ .ok r :: post) d last calls sleeps =
        ⟨.ok r, calls + pre.length + 1,
          sleeps ++ backoffSchedule d backoff pre.length⟩ := by
  induction pre with
  | nil =>
      intro d last calls sleeps
      simp [retryGo, backoffSchedule]
  | cons o pre' ih =>
      intro d last calls sleeps
      obtain ⟨e, rfl⟩ := hpre o (List.mem_cons_self o pre')
      have hrest : ((pre' ++ .ok r :: post).isEmpty) = false := by
        cases pre' <;> simp
      rw [List.cons_append, retryGo]
      simp only [hrest, Bool.false_eq_true, if_false]
      rw [ih (fun o ho => hpre o (List.mem_cons_of_mem _ ho)) (d * backoff)
        (some e) (calls + 1) (sleeps ++ [d])]
      simp only [List.length_cons]
      rw [backoffSchedule_succ]
      congr 1
      · omega
      · simp

theorem retryGo_all_failures (backoff : ℚ) (l : List (Except E R)) (e : E)
    (hall : ∀ o ∈ l, ∃ e', o = .error e')
    (hlast : l.getLast? = some (.error e)) :
    ∀ (d : ℚ) (last : Option E) (calls : ℕ) (sleeps : List ℚ),
      retryGo backoff l d last calls sleeps =
        ⟨.raised e, calls + l.length,
          sleeps ++ backoffSchedule d backoff (l.length - 1)⟩ := by
  induction l with
  | nil => cases hlast
  | cons o rest ih =>
      intro d last calls sleeps
      obtain ⟨e0, rfl⟩ := hall o (List.mem_cons_self o rest)
      cases rest with
      | nil =>
          simp only [List.getLast?_singleton, Option.some.injEq] at hlast
          rw [show (e0 : E) = e by exact Except.error.inj hlast]
          simp [retryGo, backoffSchedule]
      | cons o' tl =>
          have hrest : ((o' :: tl : List (Except E R)).isEmpty) = false := rfl
          rw [retryGo]
          simp only [hrest, Bool.false_eq_true, if_false]
          rw [ih (fun o ho => hall o (List.mem_cons_of_mem _ ho))
            (by rwa [List.getLast?_cons_cons] at hlast) (d * backoff)
            (some e0) (calls + 1) (sleeps ++ [d])]
          simp only [List.length_cons, Nat.add_sub_cancel]
          rw [backoffSchedule_succ]
          congr 1
          · omega
          · simp

theorem range_map_split (func : ℕ → Except E R) (k maxA : ℕ) (h : k < maxA) :
    ∃ post, (List.range maxA).map func =
      (List.range k).map func ++ func k :: post := by
  obtain ⟨m, rfl⟩ : ∃ m, maxA = k + (m + 1) := ⟨maxA - k - 1, by omega⟩
  rw [List.range_add, List.map_append, List.range_succ_eq_map]
  exact ⟨((List.range m).map Nat.succ).map (fun x => func (k + x)), by simp⟩

/-- C5: for `max_attempts ≥ 1`: the wrapped function is invoked at
most `max_attempts` times; if the first success is at (0-based) attempt
`k`, its result is returned after exactly `k + 1` invocations; if every
attempt fails, the exception of the last attempt is re-raised unchanged;
and with `max_attempts = 1` a failing operation re-raises after one
invocation with no sleep. -/
theorem c5_retry_contract (E R : Type) (func : ℕ → Except E R)
    (maxAttempts : ℕ) (delay backoff : ℚ) (hmax : 1 ≤ maxAttempts) :
    (tool_retry func maxAttempts delay backoff).calls ≤ maxAttempts ∧
    (∀ (k : ℕ) (r : R), k < maxAttempts →
      (∀ i, i < k → ∃ e, func i = .error e) → func k = .ok r →
        (tool_retry func maxAttempts delay backoff).outcome = .ok r ∧
        (tool_retry func maxAttempts delay backoff).calls = k + 1) ∧
    ((∀ i, i < maxAttempts → ∃ e, func i = .error e) →
      ∀ e, func (maxAttempts - 1) = .error e →
        (tool_retry func maxAttempts delay backoff).outcome = .raised e) ∧
    (∀ e, maxAttempts = 1 → func 0 = .error e →
      tool_retry func maxAttempts delay backoff = ⟨.raised e, 1, []⟩) := by
  refine ⟨?_, ?_, ?_, ?_⟩
  · have := retryGo_calls_le backoff ((List.range maxAttempts).map func)
      delay none 0 []
    simpa [tool_retry] using this
  · intro k r hk hfail hok
    obtain ⟨post, hsplit⟩ := range_map_split func k maxAttempts hk
    rw [hok] at hsplit
    unfold tool_retry
    rw [hsplit, retryGo_ok_after_failures]
    · simp
    · intro o ho
      rw [List.mem_map] at ho
      obtain ⟨i, hi, rfl⟩ := ho
      exact hfail i (List.mem_range.1 hi)
  · intro hall e hlast
    obtain ⟨n, rfl⟩ : ∃ n, maxAttempts = n + 1 := ⟨maxAttempts - 1, by omega⟩
    unfold tool_retry
    rw [retryGo_all_failures backoff _ e ?_ ?_]
    · intro o ho
      rw [List.mem_map] at ho
      obtain ⟨i, hi, rfl⟩ := ho
      exact hall i (List.mem_range.1 hi)
    · rw [List.range_succ, List.map_append]
      simp only [List.map_cons, List.map_nil]
      rw [List.getLast?_concat]
      simp only [Nat.add_sub_cancel] at hlast
      rw [hlast]
  · intro e h1 hf
    subst h1
    unfold tool_retry
    rw [show (List.range 1).map func = [Except.error e] by
      simp [List.range_succ, hf]]
    rfl

/-- Witness for C5 at a one-attempt run of an always-failing operation. -/
theorem c5_retry_contract_witness :
    (tool_retry alwaysFailOp 1 1 2).calls ≤ 1 ∧
    tool_retry alwaysFailOp 1 1 2 = ⟨.raised "fail 0", 1, []⟩ :=
  ⟨(c5_retry_contract String Unit alwaysFailOp 1 1 2 (by norm_num)).1,
    (c5_retry_contract String Unit alwaysFailOp 1 1 2 (by norm_num)).2.2.2
      "fail 0" rfl rfl⟩

/-- C6: the sleeps of `tool_retry` follow the exponential schedule
`delay * backoff ^ k` before the `(k+1)`-th retry, with no cap: when all
attempts fail there are `max_attempts - 1` sleeps, when the first
success is at attempt `k` there are `k` sleeps; in particular for
`max_attempts = 3, delay = 0.5, backoff = 2.0` an always-failing
operation sleeps `0.5` then `1.0` seconds. -/
theorem c6_backoff_schedule (E R : Type) (func : ℕ → Except E R)
    (maxAttempts : ℕ) (delay backoff : ℚ) (hmax : 1 ≤ maxAttempts) :
    ((∀ i, i < maxAttempts → ∃ e, func i = .error e) →
      (tool_retry func maxAttempts delay backoff).sleeps =
        (List.range (maxAttempts - 1)).map (fun k => delay * backoff ^ k)) ∧
    (∀ (k : ℕ) (r : R), k < maxAttempts →
      (∀ i, i < k → ∃ e, func i = .error e) → func k = .ok r →
        (tool_retry func maxAttempts delay backoff).sleeps =
          (List.range k).map (fun k => delay * backoff ^ k)) ∧
    (tool_retry alwaysFailOp 3 (1 / 2) 2).sleeps = [1 / 2, 1] := by
  refine ⟨?_, ?_, ?_⟩
  · intro hall
    obtain ⟨e, he⟩ := hall (maxAttempts - 1) (by omega)
    unfold tool_retry
    rw [retryGo_all_failures backoff _ e ?_ ?_]
    · simp [backoffSchedule]
    · intro o ho
      rw [List.mem_map] at ho
      obtain ⟨i, hi, rfl⟩ := ho
      exact hall i (List.mem_range.1 hi)
    · obtain ⟨n, hn⟩ : ∃ n, maxAttempts = n + 1 := ⟨maxAttempts - 1, by omega⟩
      subst hn
      rw [List.range_succ, List.map_append]
      simp only [List.map_cons, List.map_nil]
      rw [List.getLast?_concat]
      simp only [Nat.add_sub_cancel] at he
      rw [he]
  · intro k r hk hfail hok
    obtain ⟨post, hsplit⟩ := range_map_split func k maxAttempts hk
    rw [hok] at hsplit
    unfold tool_retry
    rw [hsplit, retryGo_ok_after_failures]
    · simp [backoffSchedule]
    · intro o ho
      rw [List.mem_map] at ho
      obtain ⟨i, hi, rfl⟩ := ho
      exact hfail i (List.mem_range.1 hi)
  · show (tool_retry alwaysFailOp 3 (1 / 2) 2).sleeps = [1 / 2, 1]
    simp only [tool_retry, List.range_succ, List.range_zero, List.nil_append,
      List.map_append, List.map_cons, List.map_nil, alwaysFailOp]
    norm_num [retryGo]

/-- Witness for C6: a three-attempt all-failing run sleeps `[1/2, 1]`. -/
theorem c6_backoff_schedule_witness :
    (tool_retry alwaysFailOp 3 (1 / 2) 2).sleeps =
      (List.range 2).map (fun k => (1 / 2 : ℚ) * 2 ^ k) :=
  (c6_backoff_schedule String Unit alwaysFailOp 3 (1 / 2) 2 (by norm_num)).1
    (fun i _ => ⟨"fail " ++ toString i, rfl⟩)

/-- C10: with `max_attempts = 0` the loop body never runs: the
wrapped operation is invoked zero times, and `raise last_exception`
executes with `last_exception` still `None` — Python's `raise None`,
a `TypeError`, not the operation's own exception. -/
theorem c10_zero_attempts_raises_none (E R : Type) (func : ℕ → Except E R)
    (delay backoff : ℚ) :
    tool_retry func 0 delay backoff =
      ⟨.raiseNone, 0, []⟩ ∧
    (tool_retry func 0 delay backoff).calls = 0 :=
  ⟨rfl, rfl⟩

/-- C7: for a bound of `N` seconds, `tool_timeout` raises a
`ToolError` with code `"TIMEOUT_ERROR"` whose message names the bound
when the operation does not complete within `N` seconds, and returns the
operation's result when it completes in time. -/
theorem c7_timeout (T R : Type) (seconds : ℕ) (op : AsyncOp T R) :
    ((seconds : ℚ) < op.duration →
      tool_timeout seconds op =
        .error (.toolError
          ("Tool execution timed out after " ++ toString seconds ++ " seconds")
          "TIMEOUT_ERROR" [])) ∧
    (∀ r : R, op.duration ≤ (seconds : ℚ) → op.result = .ok r →
      tool_timeout seconds op = .ok r) := by
  constructor
  · intro hd
    unfold tool_timeout
    rw [if_neg (not_le.2 hd)]
  · intro r hd hr
    unfold tool_timeout
    rw [if_pos hd, hr]

/-- Witness for C7: a 1-second bound times out a 2-second operation and
passes through a half-second one. -/
theorem c7_timeout_witness :
    tool_timeout 1 (AsyncOp.mk (T := Unit) (R := Unit) 2 (.ok ())) =
      .error (.toolError "Tool execution timed out after 1 seconds"
        "TIMEOUT_ERROR" []) ∧
    tool_timeout 1 (AsyncOp.mk (T := Unit) (R := Unit) (1 / 2) (.ok ())) =
      .ok () :=
  ⟨(c7_timeout Unit Unit 1 (AsyncOp.mk 2 (.ok ()))).1 (by norm_num),
    (c7_timeout Unit Unit 1 (AsyncOp.mk (1 / 2) (.ok ()))).2 () (by norm_num)
      rfl⟩

/-- C8 counterexample: `format_success_response` with an empty
metadata mapping still emits the `metadata` key (bound to the empty
dict), refuting "`metadata` present only when non-empty". -/
theorem c8_metadata_always_present_counterexample :
    hasKey (format_success_response (T := Unit) (Val.str "d") "msg" [])
      "metadata" = true ∧
    lookup (format_success_response (T := Unit) (Val.str "d") "msg" [])
      "metadata" = some (Val.table []) := by
  constructor <;> rfl

/-- C8 amended: both formatters are pure functions of their
arguments producing the canonical envelopes: the success formatter
returns a mapping with exactly the keys `success` (true), `message`,
`data`, and `metadata` — the `metadata` key is always present, bound to
the (possibly empty) metadata mapping; the error formatter returns a
mapping with exactly the keys `success` (false), `error`, `error_code`,
and `details`. -/
theorem c8_formatter_envelopes (T : Type) (data : Val T) (message : String)
    (metadata : Dict (Val T)) (error : String) (error_code : String)
    (details : Dict (Val T)) :
    format_success_response data message metadata =
      [("success", Val.bool true), ("message", Val.str message),
        ("data", data), ("metadata", Val.table metadata)] ∧
    format_error_response error error_code details =
      [("success", Val.bool false), ("error", Val.str error),
        ("error_code", Val.str error_code), ("details", Val.table details)] :=
  ⟨rfl, rfl⟩

/-! The statistics example -/

theorem sqrt_two_gt_init : (141 / 100 : ℝ) < Real.sqrt 2 := by
  have hs : Real.sqrt 2 ^ 2 = 2 := Real.sq_sqrt (by norm_num)
  have hnn : (0 : ℝ) ≤ Real.sqrt 2 := Real.sqrt_nonneg 2
  nlinarith [hs, hnn]

theorem sqrt_two_lt_bound : Real.sqrt 2 < (283 / 200 : ℝ) := by
  have hs : Real.sqrt 2 ^ 2 = 2 := Real.sq_sqrt (by norm_num)
  have hnn : (0 : ℝ) ≤ Real.sqrt 2 := Real.sqrt_nonneg 2
  nlinarith [hs, hnn]

theorem pythonRoundTo_sqrt_two : pythonRoundTo (Real.sqrt 2) 2 = 141 / 100 := by
  have h1 := sqrt_two_gt_init
  have h2 := sqrt_two_lt_bound
  have hy : Real.sqrt 2 * (10 : ℝ) ^ (2 : ℤ) = Real.sqrt 2 * 100 := by
    norm_num
  have hfloor : ⌊Real.sqrt 2 * 100⌋ = 141 := by
    rw [Int.floor_eq_iff]
    constructor <;> push_cast <;> nlinarith
  have hfract : Int.fract (Real.sqrt 2 * 100) ≠ 1 / 2 := by
    rw [Int.fract, hfloor]
    intro h
    have : Real.sqrt 2 * 100 = 141 + 1 / 2 := by push_cast at h ⊢; linarith
    nlinarith
  have hround : round (Real.sqrt 2 * 100) = 141 := by
    rw [round_eq, Int.floor_eq_iff]
    constructor <;> push_cast <;> nlinarith
  unfold pythonRoundTo pythonRound
  rw [hy, if_neg hfract, hround]
  norm_num

/-- C9: `calculate_statistics` on `numbers = [1, 2, 3, 4, 5]` with
`precision = 2` succeeds with `mean = 3.0`, `median = 3`, `min = 1`,
`max = 5`, and `std_dev = 1.41` (the square root of the variance `2`,
rounded to 2 places); `count = 5`, `sum = 15` and `variance = 2` also
come out as computed by the source. -/
theorem c9_statistics_example :
    calculate_statistics [1, 2, 3, 4, 5] 2 =
      .ok { count := 5, sum := 15, mean := 3, median := 3, min := 1, max := 5,
            std_dev := 141 / 100, variance := 2 } := by
  have hsort : List.insertionSort (fun a b => a ≤ b) ([1, 2, 3, 4, 5] : List ℚ)
      = [1, 2, 3, 4, 5] := by
    apply List.Sorted.insertionSort_eq
    norm_num [List.sorted_cons]
  have hmean : (([1, 2, 3, 4, 5] : List ℚ).sum
      / (([1, 2, 3, 4, 5] : List ℚ).length : ℚ)) = 3 := by
    norm_num
  have hvar : ((([1, 2, 3, 4, 5] : List ℚ).map
        (fun x => (x - ([1, 2, 3, 4, 5] : List ℚ).sum
          / (([1, 2, 3, 4, 5] : List ℚ).length : ℚ)) ^ 2)).sum
      / (([1, 2, 3, 4, 5] : List ℚ).length : ℚ)) = 2 := by
    norm_num
  unfold calculate_statistics
  rw [if_neg (by norm_num), if_neg (by norm_num)]
  simp only [hsort, hvar, Except.ok.injEq, Stats.mk.injEq]
  refine ⟨by norm_num, ?_, ?_, ?_, ?_, ?_, ?_, ?_⟩
  · unfold pythonRoundTo pythonRound
    norm_num [Int.fract, round_eq]
  · rw [hmean]
    unfold pythonRoundTo pythonRound
    norm_num [Int.fract, round_eq]
  · norm_num [List.getD]
    unfold pythonRoundTo pythonRound
    norm_num [Int.fract, round_eq]
  · norm_num [pyMin]
  · norm_num [pyMax]
  · rw [show (((2 : ℚ) : ℝ)) = 2 by norm_num]
    exact pythonRoundTo_sqrt_two
  · unfold pythonRoundTo pythonRound
    norm_num [Int.fract, round_eq]

end MCPTemplate
